import Mathlib

set_option maxRecDepth 1000000

/-!
Verification development for `addressutil.py`, a parser and normalizer for
United States postal addresses.  The Python source is shallowly embedded:
strings are Lean `String`s, the tokenizer and parser are total functions,
and Python exceptions (`AddressParseError`, `ValueError`) are modelled by
an `Except` result with an explicit error type.  Lookup tables are
transcribed verbatim from the module-level constants of the source.
-/

namespace AddressUtil

/-- Token kinds, mirroring the `TYPE_*` constants of `_AddressToken`. -/
inductive TType where
  | decimal
  | fraction
  | number
  | numbersuffixed
  | pound
  | special
  | word
deriving DecidableEq, Repr

/-- An `_AddressToken`: literal text, kind, and offset of the first
character in the (uppercased, stripped) delivery-address string. -/
structure Token where
  literal : String
  ty : TType
  index : Nat
deriving DecidableEq, Repr

/-- Errors raised during parsing.  `addressParseError` models
`AddressParseError(description, address_string, index)` (the address string
itself is only used for message formatting and is not kept);
`valueError` models Python's `ValueError`. -/
inductive ParseErr where
  | addressParseError (description : String) (index : Nat)
  | valueError (description : String)
deriving DecidableEq, Repr

/-! ### Python string helpers

All string manipulation is implemented by structural recursion over the
character list of the string, so that every definition reduces inside the
kernel (the corresponding core-library functions on `String` recurse on
byte positions and do not). -/

/-- Python `s.upper()` (ASCII). -/
def pyUpper (s : String) : String :=
  String.mk (s.data.map Char.toUpper)

/-- Python `s.strip()`: remove leading and trailing whitespace. -/
def pyStrip (s : String) : String :=
  String.mk (((s.data.dropWhile Char.isWhitespace).reverse.dropWhile Char.isWhitespace).reverse)

/-- Python `s.split(sep)` for a one-character separator: split at every
occurrence, keeping empty pieces. -/
def splitCharAux (sep : Char) : List Char → List Char → List String
  | [], acc => [String.mk acc.reverse]
  | c :: cs, acc =>
    if c = sep then String.mk acc.reverse :: splitCharAux sep cs []
    else splitCharAux sep cs (c :: acc)

/-- Python `s.split(sep)` for a one-character separator. -/
def splitChar (sep : Char) (s : String) : List String :=
  splitCharAux sep s.data []

/-- Python `sep.join(parts)`. -/
def joinSep (sep : String) : List String → String
  | [] => ""
  | [x] => x
  | x :: y :: rest => x ++ sep ++ joinSep sep (y :: rest)

/-- Python `c in s` for a single character (substring containment of a
one-character string). -/
def pyCharIn (c : Char) (s : String) : Bool :=
  s.data.contains c

/-- `s.replace('.', "")`: remove every period. -/
def stripDots (s : String) : String :=
  String.mk (s.data.filter (fun c => c ≠ '.'))

/-- `re.sub(r"[^A-Za-z0-9]", "", s)`: keep only ASCII alphanumerics. -/
def stripNonAlnum (s : String) : String :=
  String.mk (s.data.filter Char.isAlphanum)

/-- `re.sub(r"[^A-Za-z]", "", s)`: keep only ASCII letters. -/
def stripNonAlpha (s : String) : String :=
  String.mk (s.data.filter Char.isAlpha)

/-- `x.isPrefixOf`-style check on character lists (needle, haystack). -/
def listPrefixOf : List Char → List Char → Bool
  | [], _ => true
  | _ :: _, [] => false
  | a :: as, b :: bs => a = b && listPrefixOf as bs

/-- Needle occurs as a contiguous infix of the haystack. -/
def listInfixOf (n : List Char) : List Char → Bool
  | [] => listPrefixOf n []
  | c :: cs => listPrefixOf n (c :: cs) || listInfixOf n cs

/-- Python `needle in hay` on strings (substring containment). -/
def pyIn (needle hay : String) : Bool :=
  listInfixOf needle.data hay.data

/-- Python dict lookup where the *last* binding of a key wins (dict
literals with a duplicated key keep the final value). -/
def dictGet : List (String × String) → String → Option String
  | [], _ => none
  | (k, v) :: rest, key =>
    match dictGet rest key with
    | some r => some r
    | none => if key = k then some v else none

/-- Python `key in dict`. -/
def dictHasKey (m : List (String × String)) (key : String) : Bool :=
  (dictGet m key).isSome

/-! ### Reference tables (transcribed from the module constants) -/

def DIRECTIONS_LIST : List String := ["N", "E", "S", "W", "NW", "NE", "SE", "SW", "NORTH", "EAST", "SOUTH", "WEST", "NORTHWEST", "NORTHEAST", "SOUTHEAST", "SOUTHWEST"]

def DIRECTIONS_MAPPING : List (String × String) := [("NORTH", "N"), ("EAST", "E"), ("SOUTH", "S"), ("WEST", "W"), ("NORTHWEST", "NW"), ("NORTHEAST", "NE"), ("SOUTHEAST", "SE"), ("SOUTHWEST", "SW")]

def HIGHWAY_MAPPING : List (String × String) := [("COUNTY HIGHWAY", "COUNTY HIGHWAY"), ("COUNTY HWY", "COUNTY HIGHWAY"), ("CNTY HWY", "COUNTY HIGHWAY"), ("COUNTY HWY", "COUNTY HIGHWAY"), ("COUNTY ROAD", "COUNTY ROAD"), ("COUNTY RD", "COUNTY ROAD"), ("CR", "COUNTY ROAD"), ("CNTY ROAD", "COUNTY ROAD"), ("CNTY RD", "COUNTY ROAD"), ("EXPRESSWAY", "EXPRESSWAY"), ("EXP", "EXPRESSWAY"), ("EXPR", "EXPRESSWAY"), ("EXPRESS", "EXPRESSWAY"), ("EXPW", "EXPRESSWAY"), ("EXPY", "EXPRESSWAY"), ("FARM TO MARKET", "FM"), ("FM", "FM"), ("HWY FM", "FM"), ("HWY", "HIGHWAY"), ("HIWAY", "HIGHWAY"), ("IH", "INTERSTATE"), ("INTERSTATE", "INTERSTATE"), ("INTERSTATE HWY", "INTERSTATE"), ("INTERSTATE HIGHWAY", "INTERSTATE"), ("LOOP", "LOOP"), ("RD", "ROAD"), ("RT", "ROUTE"), ("RTE", "ROUTE"), ("RANCH RD", "RANCH ROAD"), ("ST HIGHWAY", "STATE HIGHWAY"), ("STATE HWY", "STATE HIGHWAY"), ("STATE HIGHWAY", "STATE HIGHWAY"), ("ST HWY", "STATE HIGHWAY"), ("SH", "STATE HIGHWAY"), ("SR", "STATE ROAD"), ("ST RD", "STATE ROAD"), ("ST ROAD", "STATE ROAD"), ("STATE ROAD", "STATE ROAD"), ("ST RT", "STATE ROUTE"), ("STATE RT", "STATE ROUTE"), ("ST ROUTE", "STATE ROUTE"), ("ST RTE", " STATE ROUTE"), ("STATE RTE", "STATE ROUTE"), ("TOWNSHIP RD", "TOWNSHIP ROAD"), ("TSR", "TOWNSHIP ROAD"), ("US", "US HIGHWAY"), ("US HWY", "US HIGHWAY"), ("US HIGHWAY", "US HIGHWAY")]

def SECONDARY_UNIT_INDICATORS : List String := ["APARTMENT", "APT", "BASEMENT", "BSMT", "BUILDING", "BLDG", "DEPARTMENT", "DEPT", "FLOOR", "FL", "FRONT", "FRNT", "HANGER", "HANGAR", "HNGR", "KEY", "LOBBY", "LBBY", "LOT", "LOWER", "LOWR", "OFFICE", "OFC", "PENTHOUSE", "PH", "PIER", "REAR", "ROOM", "RM", "SIDE", "SPACE", "SPC", "STOP", "SUITE", "STE", "TRAILER", "TRLR", "UNIT", "UPPER", "UPPR"]

def STREET_SUFFIXES : List String := ["ALLEE", "ALLEY", "ALLY", "ALY", "ANEX", "ANNEX", "ANNX", "ANX", "ARC ", "ARCADE ", "AV", "AVE", "AVEN", "AVENU", "AVENUE", "AVN", "AVNUE", "BAYOO", "BAYOU", "BCH", "BEACH", "BEND", "BND", "BLF", "BLUF", "BLUFF", "BLUFFS ", "BOT", "BTM", "BOTTM", "BOTTOM", "BLVD", "BOUL", "BOULEVARD ", "BOULV", "BR", "BRNCH", "BRANCH", "BRDGE", "BRG", "BRIDGE", "BRK", "BROOK", "BROOKS ", "BURG", "BURGS", "BYP", "BYPA", "BYPAS", "BYPASS", "BYPS", "CAMP", "CP", "CMP", "CANYN", "CANYON", "CNYN", "CAPE", "CPE", "CAUSEWAY", "CAUSWA", "CSWY", "CEN", "CENT", "CENTER", "CENTR", "CENTRE", "CNTER", "CNTR", "CTR", "CENTERS ", "CIR", "CIRC", "CIRCL", "CIRCLE", "CRCL", "CRCLE", "CIRCLES", "CLF", "CLIFF", "CLFS", "CLIFFS", "CLB", "CLUB", "COMMON", "COMMONS", "COR", "CORNER", "CORNERS", "CORS", "COURSE", "CRSE", "COURT", "CT", "COURTS", "CTS", "COVE", "CV", "COVES", "CREEK", "CRK", "CRESCENT", "CRES", "CRSENT", "CRSNT", "CREST", "CROSSING ", "CRSSNG ", "XING ", "CROSSROAD", "CROSSROADS", "CURVE ", "DALE ", "DL ", "DAM ", "DM ", "DIV", "DIVIDE", "DV", "DVD", "DR", "DRIV", "DRIVE", "DRV", "DRIVES", "EST", "ESTATE", "ESTATES", "ESTS", "EXP", "EXPR", "EXPRESS", "EXPRESSWAY", "EXPW", "EXPY", "EXT", "EXTENSION", "EXTN", "EXTNSN", "EXTS", "FALL", "FALLS", "FLS", "FERRY", "FRRY", "FRY", "FIELD", "FLD", "FIELDS", "FLDS", "FLAT", "FLT", "FLATS", "FLTS", "FORD", "FRD", "FORDS", "FOREST", "FORESTS", "FRST", "FORG", "FORGE", "FRG", "FORGES", "FORK", "FRK", "FORKS", "FRKS", "FORT", "FRT", "FT", "FREEWAY", "FREEWY", "FRWAY", "FRWY", "FWY", "GARDEN", "GARDN", "GRDEN", "GRDN", "GARDENS", "GDNS", "GRDNS", "GATEWAY", "GATEWY", "GATWAY", "GTWAY", "GTWY", "GLEN", "GLN", "GLENS", "GREEN", "GRN", "GREENS", "GROV", "GROVE", "GRV", "GROVES", "HARB", "HARBOR", "HARBR", "HBR", "HRBOR", "HARBORS", "HAVEN", "HVN", "HT", "HTS", "HIGHWAY", "HIGHWY", "HIWAY", "HIWY", "HWAY", "HWY", "HILL", "HL", "HILLS", "HLS", "HLLW", "HOLLOW", "HOLLOWS", "HOLW", "HOLWS", "INLT", "IS", "ISLAND", "ISLND", "ISLANDS", "ISLNDS", "ISS", "ISLE", "ISLES", "JCT", "JCTION", "JCTN", "JUNCTION", "JUNCTN", "JUNCTON", "JCTNS", "JCTS", "JUNCTIONS", "KEY", "KY", "KEYS", "KYS", "KNL", "KNOL", "KNOLL", "KNLS", "KNOLLS", "LK", "LAKE", "LKS", "LAKES", "LAND", "LANDING", "LNDG", "LNDNG", "LANE", "LN", "LGT", "LIGHT", "LIGHTS", "LF", "LOAF", "LCK", "LOCK", "LCKS", "LOCKS", "LDG", "LDGE", "LODG", "LODGE", "LOOP", "LOOPS", "MALL", "MNR", "MANOR", "MANORS", "MNRS", "MEADOW", "MDW", "MDWS", "MEADOWS", "MEDOWS", "MEWS", "MILL", "MILLS", "MISSN", "MSSN", "MOTORWAY", "MNT", "MT", "MOUNT", "MNTAIN", "MNTN", "MOUNTAIN", "MOUNTIN", "MTIN", "MTN", "MNTNS", "MOUNTAINS", "NCK", "NECK", "ORCH", "ORCHARD", "ORCHRD", "OVAL", "OVL", "OVERPASS", "PARK", "PRK", "PARKS", "PARKWAY", "PARKWY", "PKWAY", "PKWY", "PKY", "PARKWAYS", "PKWYS", "PASS", "PASSAGE", "PATH", "PATHS", "PIKE", "PIKES", "PINE", "PINES", "PNES", "PL", "PLAIN", "PLN", "PLAINS", "PLNS", "PLAZA", "PLZ", "PLZA", "POINT", "PT", "POINTS", "PTS", "PORT", "PRT", "PORTS", "PRTS", "PR", "PRAIRIE", "PRR", "RAD", "RADIAL", "RADIEL", "RADL", "RAMP", "RANCH", "RANCHES", "RNCH", "RNCHS", "RAPID", "RPD", "RAPIDS", "RPDS", "REST", "RST", "RDG", "RDGE", "RIDGE", "RDGS", "RIDGES", "RIV", "RIVER", "RVR", "RIVR", "RD", "ROAD", "ROADS", "RDS", "ROUTE", "ROW", "RUE", "RUN", "SHL", "SHOAL", "SHLS", "SHOALS", "SHOAR", "SHORE", "SHR", "SHOARS", "SHORES", "SHRS", "SKYWAY", "SPG", "SPNG", "SPRING", "SPRNG", "SPGS", "SPNGS", "SPRINGS", "SPRNGS", "SPUR", "SPURS", "SQ", "SQR", "SQRE", "SQU", "SQUARE", "SQRS", "SQUARES", "STA", "STATION", "STATN", "STN", "STRA", "STRAV", "STRAVEN", "STRAVENUE", "STRAVN", "STRVN", "STRVNUE", "STREAM", "STREME", "STRM", "STREET", "STRT", "ST", "STR", "STREETS", "SMT", "SUMIT", "SUMITT", "SUMMIT", "TER", "TERR", "TERRACE", "THROUGHWAY", "TRACE", "TRACES", "TRCE", "TRACK", "TRACKS", "TRAK", "TRK", "TRKS", "TRAFFICWAY", "TRAIL", "TRAILS", "TRL", "TRLS", "TRAILER", "TRLR", "TRLRS", "TUNEL", "TUNL", "TUNLS", "TUNNEL", "TUNNELS", "TUNNL", "TRNPK", "TURNPIKE", "TURNPK", "UNDERPASS", "UN", "UNION", "UNIONS", "VALLEY", "VALLY", "VLLY", "VLY", "VALLEYS", "VLYS", "VDCT", "VIA", "VIADCT", "VIADUCT", "VIEW", "VW", "VIEWS", "VWS", "VILL", "VILLAG", "VILLAGE", "VILLG", "VILLIAGE", "VLG", "VILLAGES", "VLGS", "VILLE", "VL", "VIS", "VIST", "VISTA", "VST", "VSTA", "WALK", "WALKS", "WALL", "WY", "WAY", "WAYS", "WELL", "WELLS"]

def STREET_SUFFIX_MAPPING : List (String × String) := [("ALLEE", "ALY"), ("ALLEY", "ALY"), ("ALLY", "ALY"), ("ALY", "ALY"), ("ANEX", "ANX"), ("ANNEX", "ANX"), ("ANNX", "ANX"), ("ANX", "ANX"), ("ARC", "ARC"), ("ARCADE", "ARC"), ("AV", "AVE"), ("AVE", "AVE"), ("AVEN", "AVE"), ("AVENU", "AVE"), ("AVENUE", "AVE"), ("AVN", "AVE"), ("AVNUE", "AVE"), ("BAYOO", "BYU"), ("BAYOU", "BYU"), ("BCH", "BCH"), ("BEACH", "BCH"), ("BEND", "BND"), ("BND", "BND"), ("BLF", "BLF"), ("BLUF", "BLF"), ("BLUFF", "BLF"), ("BLUFFS", "BLFS"), ("BOT", "BTM"), ("BTM", "BTM"), ("BOTTM", "BTM"), ("BOTTOM", "BTM"), ("BLVD", "BLVD"), ("BOUL", "BLVD"), ("BOULEVARD", "BLVD"), ("BOULV", "BLVD"), ("BR", "BR"), ("BRNCH", "BR"), ("BRANCH", "BR"), ("BRDGE", "BRG"), ("BRG", "BRG"), ("BRIDGE", "BRG"), ("BRK", "BRK"), ("BROOK", "BRK"), ("BROOKS", "BRKS"), ("BURG", "BG"), ("BURGS", "BGS"), ("BYP", "BYP"), ("BYPA", "BYP"), ("BYPAS", "BYP"), ("BYPASS", "BYP"), ("BYPS", "BYP"), ("CAMP", "CP"), ("CP", "CP"), ("CMP", "CP"), ("CANYN", "CYN"), ("CANYON", "CYN"), ("CNYN", "CYN"), ("CAPE", "CPE"), ("CPE", "CPE"), ("CAUSEWAY", "CSWY"), ("CAUSWA", "CSWY"), ("CSWY", "CSWY"), ("CEN", "CTR"), ("CENT", "CTR"), ("CENTER", "CTR"), ("CENTR", "CTR"), ("CENTRE", "CTR"), ("CNTER", "CTR"), ("CNTR", "CTR"), ("CTR", "CTR"), ("CENTERS", "CTRS"), ("CIR", "CIR"), ("CIRC", "CIR"), ("CIRCL", "CIR"), ("CIRCLE", "CIR"), ("CRCL", "CIR"), ("CRCLE", "CIR"), ("CIRCLES", "CIRS"), ("CLF", "CLF"), ("CLIFF", "CLF"), ("CLFS", "CLFS"), ("CLIFFS", "CLFS"), ("CLB", "CLB"), ("CLUB", "CLB"), ("COMMON", "CMN"), ("COMMONS", "CMNS"), ("COR", "COR"), ("CORNER", "COR"), ("CORNERS", "CORS"), ("CORS", "CORS"), ("COURSE", "CRSE"), ("CRSE", "CRSE"), ("COURT", "CT"), ("CT", "CT"), ("COURTS", "CTS"), ("CTS", "CTS"), ("COVE", "CV"), ("CV", "CV"), ("COVES", "CVS"), ("CREEK", "CRK"), ("CRK", "CRK"), ("CRESCENT", "CRES"), ("CRES", "CRES"), ("CRSENT", "CRES"), ("CRSNT", "CRES"), ("CREST", "CRST"), ("CROSSING", "XING"), ("CRSSNG", "XING"), ("XING", "XING"), ("CROSSROAD", "XRD"), ("CROSSROADS", "XRDS"), ("CURVE", "CURV"), ("DALE", "DL"), ("DL", "DL"), ("DAM", "DM"), ("DM", "DM"), ("DIV", "DV"), ("DIVIDE", "DV"), ("DV", "DV"), ("DVD", "DV"), ("DR", "DR"), ("DRIV", "DR"), ("DRIVE", "DR"), ("DRV", "DR"), ("DRIVES", "DRS"), ("EST", "EST"), ("ESTATE", "EST"), ("ESTATES", "ESTS"), ("ESTS", "ESTS"), ("EXP", "EXPY"), ("EXPR", "EXPY"), ("EXPRESS", "EXPY"), ("EXPRESSWAY", "EXPY"), ("EXPW", "EXPY"), ("EXPY", "EXPY"), ("EXT", "EXT"), ("EXTENSION", "EXT"), ("EXTN", "EXT"), ("EXTNSN", "EXT"), ("EXTS", "EXTS"), ("FALL", "FALL"), ("FALLS", "FLS"), ("FLS", "FLS"), ("FERRY", "FRY"), ("FRRY", "FRY"), ("FRY", "FRY"), ("FIELD", "FLD"), ("FLD", "FLD"), ("FIELDS", "FLDS"), ("FLDS", "FLDS"), ("FLAT", "FLT"), ("FLT", "FLT"), ("FLATS", "FLTS"), ("FLTS", "FLTS"), ("FORD", "FRD"), ("FRD", "FRD"), ("FORDS", "FRDS"), ("FOREST", "FRST"), ("FORESTS", "FRST"), ("FRST", "FRST"), ("FORG", "FRG"), ("FORGE", "FRG"), ("FRG", "FRG"), ("FORGES", "FRGS"), ("FORK", "FRK"), ("FRK", "FRK"), ("FORKS", "FRKS"), ("FRKS", "FRKS"), ("FORT", "FT"), ("FRT", "FT"), ("FT", "FT"), ("FREEWAY", "FWY"), ("FREEWY", "FWY"), ("FRWAY", "FWY"), ("FRWY", "FWY"), ("FWY", "FWY"), ("GARDEN", "GDN"), ("GARDN", "GDN"), ("GRDEN", "GDN"), ("GRDN", "GDN"), ("GARDENS", "GDNS"), ("GDNS", "GDNS"), ("GRDNS", "GDNS"), ("GATEWAY", "GTWY"), ("GATEWY", "GTWY"), ("GATWAY", "GTWY"), ("GTWAY", "GTWY"), ("GTWY", "GTWY"), ("GLEN", "GLN"), ("GLN", "GLN"), ("GLENS", "GLNS"), ("GREEN", "GRN"), ("GRN", "GRN"), ("GREENS", "GRNS"), ("GROV", "GRV"), ("GROVE", "GRV"), ("GRV", "GRV"), ("GROVES", "GRVS"), ("HARB", "HBR"), ("HARBOR", "HBR"), ("HARBR", "HBR"), ("HBR", "HBR"), ("HRBOR", "HBR"), ("HARBORS", "HBRS"), ("HAVEN", "HVN"), ("HVN", "HVN"), ("HT", "HTS"), ("HTS", "HTS"), ("HIGHWAY", "HWY"), ("HIGHWY", "HWY"), ("HIWAY", "HWY"), ("HIWY", "HWY"), ("HWAY", "HWY"), ("HWY", "HWY"), ("HILL", "HL"), ("HL", "HL"), ("HILLS", "HLS"), ("HLS", "HLS"), ("HLLW", "HOLW"), ("HOLLOW", "HOLW"), ("HOLLOWS", "HOLW"), ("HOLW", "HOLW"), ("HOLWS", "HOLW"), ("INLT", "INLT"), ("IS", "IS"), ("ISLAND", "IS"), ("ISLND", "IS"), ("ISLANDS", "ISS"), ("ISLNDS", "ISS"), ("ISS", "ISS"), ("ISLE", "ISLE"), ("ISLES", "ISLE"), ("JCT", "JCT"), ("JCTION", "JCT"), ("JCTN", "JCT"), ("JUNCTION", "JCT"), ("JUNCTN", "JCT"), ("JUNCTON", "JCT"), ("JCTNS", "JCTS"), ("JCTS", "JCTS"), ("JUNCTIONS", "JCTS"), ("KEY", "KY"), ("KY", "KY"), ("KEYS", "KYS"), ("KYS", "KYS"), ("KNL", "KNL"), ("KNOL", "KNL"), ("KNOLL", "KNL"), ("KNLS", "KNLS"), ("KNOLLS", "KNLS"), ("LK", "LK"), ("LAKE", "LK"), ("LKS", "LKS"), ("LAKES", "LKS"), ("LAND", "LAND"), ("LANDING", "LNDG"), ("LNDG", "LNDG"), ("LNDNG", "LNDG"), ("LANE", "LN"), ("LN", "LN"), ("LGT", "LGT"), ("LIGHT", "LGT"), ("LIGHTS", "LGTS"), ("LF", "LF"), ("LOAF", "LF"), ("LCK", "LCK"), ("LOCK", "LCK"), ("LCKS", "LCKS"), ("LOCKS", "LCKS"), ("LDG", "LDG"), ("LDGE", "LDG"), ("LODG", "LDG"), ("LODGE", "LDG"), ("LOOP", "LOOP"), ("LOOPS", "LOOP"), ("MALL", "MALL"), ("MNR", "MNR"), ("MANOR", "MNR"), ("MANORS", "MNRS"), ("MNRS", "MNRS"), ("MEADOW", "MDW"), ("MDW", "MDWS"), ("MDWS", "MDWS"), ("MEADOWS", "MDWS"), ("MEDOWS", "MDWS"), ("MEWS", "MEWS"), ("MILL", "ML"), ("MILLS", "MLS"), ("MISSN", "MSN"), ("MSSN", "MSN"), ("MOTORWAY", "MTWY"), ("MNT", "MT"), ("MT", "MT"), ("MOUNT", "MT"), ("MNTAIN", "MTN"), ("MNTN", "MTN"), ("MOUNTAIN", "MTN"), ("MOUNTIN", "MTN"), ("MTIN", "MTN"), ("MTN", "MTN"), ("MNTNS", "MTNS"), ("MOUNTAINS", "MTNS"), ("NCK", "NCK"), ("NECK", "NCK"), ("ORCH", "ORCH"), ("ORCHARD", "ORCH"), ("ORCHRD", "ORCH"), ("OVAL", "OVAL"), ("OVL", "OVAL"), ("OVERPASS", "OPAS"), ("PARK", "PARK"), ("PRK", "PARK"), ("PARKS", "PARK"), ("PARKWAY", "PKWY"), ("PARKWY", "PKWY"), ("PKWAY", "PKWY"), ("PKWY", "PKWY"), ("PKY", "PKWY"), ("PARKWAYS", "PKWY"), ("PKWYS", "PKWY"), ("PASS", "PASS"), ("PASSAGE", "PSGE"), ("PATH", "PATH"), ("PATHS", "PATH"), ("PIKE", "PIKE"), ("PIKES", "PIKE"), ("PINE", "PNE"), ("PINES", "PNES"), ("PNES", "PNES"), ("PL", "PL"), ("PLAIN", "PLN"), ("PLN", "PLN"), ("PLAINS", "PLNS"), ("PLNS", "PLNS"), ("PLAZA", "PLZ"), ("PLZ", "PLZ"), ("PLZA", "PLZ"), ("POINT", "PT"), ("PT", "PT"), ("POINTS", "PTS"), ("PTS", "PTS"), ("PORT", "PRT"), ("PRT", "PRT"), ("PORTS", "PRTS"), ("PRTS", "PRTS"), ("PR", "PR"), ("PRAIRIE", "PR"), ("PRR", "PR"), ("RAD", "RADL"), ("RADIAL", "RADL"), ("RADIEL", "RADL"), ("RADL", "RADL"), ("RAMP", "RAMP"), ("RANCH", "RNCH"), ("RANCHES", "RNCH"), ("RNCH", "RNCH"), ("RNCHS", "RNCH"), ("RAPID", "RPD"), ("RPD", "RPD"), ("RAPIDS", "RPDS"), ("RPDS", "RPDS"), ("REST", "RST"), ("RST", "RST"), ("RDG", "RDG"), ("RDGE", "RDG"), ("RIDGE", "RDG"), ("RDGS", "RDGS"), ("RIDGES", "RDGS"), ("RIV", "RIV"), ("RIVER", "RIV"), ("RVR", "RIV"), ("RIVR", "RIV"), ("RD", "RD"), ("ROAD", "RD"), ("ROADS", "RDS"), ("RDS", "RDS"), ("ROUTE", "RTE"), ("ROW", "ROW"), ("RUE", "RUE"), ("RUN", "RUN"), ("SHL", "SHL"), ("SHOAL", "SHL"), ("SHLS", "SHLS"), ("SHOALS", "SHLS"), ("SHOAR", "SHR"), ("SHORE", "SHR"), ("SHR", "SHR"), ("SHOARS", "SHRS"), ("SHORES", "SHRS"), ("SHRS", "SHRS"), ("SKYWAY", "SKWY"), ("SPG", "SPG"), ("SPNG", "SPG"), ("SPRING", "SPG"), ("SPRNG", "SPG"), ("SPGS", "SPGS"), ("SPNGS", "SPGS"), ("SPRINGS", "SPGS"), ("SPRNGS", "SPGS"), ("SPUR", "SPUR"), ("SPURS", "SPUR"), ("SQ", "SQ"), ("SQR", "SQ"), ("SQRE", "SQ"), ("SQU", "SQ"), ("SQUARE", "SQ"), ("SQRS", "SQS"), ("SQUARES", "SQS"), ("STA", "STA"), ("STATION", "STA"), ("STATN", "STA"), ("STN", "STA"), ("STRA", "STRA"), ("STRAV", "STRA"), ("STRAVEN", "STRA"), ("STRAVENUE", "STRA"), ("STRAVN", "STRA"), ("STRVN", "STRA"), ("STRVNUE", "STRA"), ("STREAM", "STRM"), ("STREME", "STRM"), ("STRM", "STRM"), ("STREET", "ST"), ("STRT", "ST"), ("ST", "ST"), ("STR", "ST"), ("STREETS", "STS"), ("SMT", "SMT"), ("SUMIT", "SMT"), ("SUMITT", "SMT"), ("SUMMIT", "SMT"), ("TER", "TER"), ("TERR", "TER"), ("TERRACE", "TER"), ("THROUGHWAY", "TRWY"), ("TRACE", "TRCE"), ("TRACES", "TRCE"), ("TRCE", "TRCE"), ("TRACK", "TRAK"), ("TRACKS", "TRAK"), ("TRAK", "TRAK"), ("TRK", "TRAK"), ("TRKS", "TRAK"), ("TRAFFICWAY", "TRFY"), ("TRAIL", "TRL"), ("TRAILS", "TRL"), ("TRL", "TRL"), ("TRLS", "TRL"), ("TRAILER", "TRLR"), ("TRLR", "TRLR"), ("TRLRS", "TRLR"), ("TUNEL", "TUNL"), ("TUNL", "TUNL"), ("TUNLS", "TUNL"), ("TUNNEL", "TUNL"), ("TUNNELS", "TUNL"), ("TUNNL", "TUNL"), ("TRNPK", "TPKE"), ("TURNPIKE", "TPKE"), ("TURNPK", "TPKE"), ("UNDERPASS", "UPAS"), ("UN", "UN"), ("UNION", "UN"), ("UNIONS", "UNS"), ("VALLEY", "VLY"), ("VALLY", "VLY"), ("VLLY", "VLY"), ("VLY", "VLY"), ("VALLEYS", "VLYS"), ("VLYS", "VLYS"), ("VDCT", "VIA"), ("VIA", "VIA"), ("VIADCT", "VIA"), ("VIADUCT", "VIA"), ("VIEW", "VW"), ("VW", "VW"), ("VIEWS", "VWS"), ("VWS", "VWS"), ("VILL", "VLG"), ("VILLAG", "VLG"), ("VILLAGE", "VLG"), ("VILLG", "VLG"), ("VILLIAGE", "VLG"), ("VLG", "VLG"), ("VILLAGES", "VLGS"), ("VLGS", "VLGS"), ("VILLE", "VL"), ("VL", "VL"), ("VIS", "VIS"), ("VIST", "VIS"), ("VISTA", "VIS"), ("VST", "VIS"), ("VSTA", "VIS"), ("WALK", "WALK"), ("WALKS", "WALK"), ("WALL", "WALL"), ("WY", "WAY"), ("WAY", "WAY"), ("WAYS", "WAYS"), ("WELL", "WL"), ("WELLS", "WLS"), ("WLS", "WLS")]

/-! ### Tokenizer (`Address._lex_delivery_address`) -/

/-- One step per character of the scan loop.  `cur` is the token currently
being accumulated (`current_token`), `pos` is `current_position`.  Emitted
tokens are returned in source order. -/
def lexLoop : List Char → Nat → Option Token → Except ParseErr (List Token)
  | [], _, none => .ok []
  | [], _, some t => .ok [t]
  | c :: rest, pos, none =>
    if c = '\n' then .error (.addressParseError "unexpected newline" pos)
    -- re.match(r"[^A-Za-z0-9#\-\.\/]", c): another non-parsed character, do nothing
    else if ¬ (c.isAlphanum ∨ c = '#' ∨ c = '-' ∨ c = '.' ∨ c = '/') then
      lexLoop rest (pos + 1) none
    else if c.isDigit then
      lexLoop rest (pos + 1) (some ⟨String.singleton c, .number, pos⟩)
    else if c.isAlpha then
      lexLoop rest (pos + 1) (some ⟨String.singleton c, .word, pos⟩)
    else if c = '#' then
      -- the pound sign is emitted immediately as its own token
      match lexLoop rest (pos + 1) none with
      | .error e => .error e
      | .ok out => .ok (⟨String.singleton c, .pound, pos⟩ :: out)
    else
      -- begins with hyphen, period, or forward slash
      lexLoop rest (pos + 1) (some ⟨String.singleton c, .special, pos⟩)
  | c :: rest, pos, some t =>
    if c = '\n' then .error (.addressParseError "unexpected newline" pos)
    -- re.match(r"[^A-Za-z0-9\-\.\/]", c): terminate the current token
    else if ¬ (c.isAlphanum ∨ c = '-' ∨ c = '.' ∨ c = '/') then
      if c = '#' then
        match lexLoop rest (pos + 1) none with
        | .error e => .error e
        | .ok out => .ok (t :: ⟨String.singleton c, .pound, pos⟩ :: out)
      else
        match lexLoop rest (pos + 1) none with
        | .error e => .error e
        | .ok out => .ok (t :: out)
    else
      -- append the character, refining the kind of an open numeric token
      let newTy : TType :=
        if t.ty = .number then
          if c = '.' then .decimal
          else if c = '/' then .fraction
          else if ¬ c.isDigit then .numbersuffixed
          else .number
        else if t.ty = .decimal ∨ t.ty = .fraction then
          if ¬ c.isDigit then .numbersuffixed else t.ty
        else t.ty
      lexLoop rest (pos + 1) (some ⟨t.literal.push c, newTy, t.index⟩)

/-- `Address._lex_delivery_address` on an already prepared string. -/
def lexDeliveryAddress (delivery_address : String) : Except ParseErr (List Token) :=
  lexLoop delivery_address.data 0 none

/-! ### Last-line parsing (lines 260-297 of `Address.parse`) -/

/-- `re.sub(r"\s", " ", s)`: each whitespace character becomes one space
(runs are NOT collapsed). -/
def subWhitespace (s : String) : String :=
  String.mk (s.data.map (fun c => if c.isWhitespace then ' ' else c))

/-- `re.sub(r"[^A-Za-z0-9\s\-]", "", s)`: drop every character that is not
alphanumeric, whitespace, or a hyphen. -/
def keepAlnumSpaceHyphen (s : String) : String :=
  String.mk (s.data.filter (fun c => c.isAlphanum ∨ c.isWhitespace ∨ c = '-'))

/-- City/state/zip extraction from the last line.  Returns
`(city, state, zipcode, zipcode_ext)`. -/
def parseLastLine (last_line : String) : Except ParseErr (String × String × String × Option String) :=
  let cleaned := keepAlnumSpaceHyphen (subWhitespace (pyStrip (pyUpper last_line)))
  let toks := splitChar ' ' cleaned
  if toks.length ≤ 1 then
    .error (.valueError "Missing 2-character state code in address last line")
  else if toks.length ≤ 2 then
    .error (.valueError "Missing city in address last line")
  else
    let zipTok := toks.getLastD ""
    let stateTok := toks.dropLast.getLastD ""
    let city := joinSep " " toks.dropLast.dropLast
    if pyCharIn '-' zipTok then
      -- ZIP+4: split('-')[0] and split('-')[-1]
      let parts := splitChar '-' zipTok
      let zipcode := parts.headD ""
      let zipcode_ext := parts.getLastD ""
      if zipcode.data.any (fun c => ¬ c.isDigit) ∨ zipcode_ext.data.any (fun c => ¬ c.isDigit) then
        .error (.valueError "Invalid characters in ZIP+4 code")
      else if zipcode.length ≠ 5 ∨ zipcode_ext.length ≠ 4 then
        .error (.valueError "ZIP+4 code has the wrong length. All ZIP codes must be zero-padded.")
      else if stateTok.length ≠ 2 then
        .error (.valueError "Invalid 2-character state code")
      else
        .ok (city, stateTok, zipcode, some zipcode_ext)
    else
      let zipcode := zipTok
      if zipcode.data.any (fun c => ¬ c.isDigit) then
        .error (.valueError "Invalid characters in ZIP code")
      else if zipcode.length ≠ 5 then
        .error (.valueError "ZIP code has the wrong length. All ZIP codes must be zero-padded.")
      else if stateTok.length ≠ 2 then
        .error (.valueError "Invalid 2-character state code")
      else
        .ok (city, stateTok, zipcode, none)

/-! ### Address model -/

/-- The tagged result type: one constructor per Python class.  `base`
corresponds to instances of `Address` itself (type tag `AddressType.BASE`). -/
inductive Address where
  | base (city state zipcode : String) (zipcode_ext : Option String)
  | generalDelivery (city state zipcode : String) (zipcode_ext : Option String)
  | highwayContractRoute (route_number box_number city state zipcode : String) (zipcode_ext : Option String)
  | overseasMilitary (address_type address_number box_number city state zipcode : String) (zipcode_ext : Option String)
  | postOfficeBox (box_number city state zipcode : String) (zipcode_ext : Option String)
  | ruralRoute (route_number box_number city state zipcode : String) (zipcode_ext : Option String)
  | standard (address_number predirectional street_name suffix postdirectional address2_type address2 : Option String)
      (city state zipcode : String) (zipcode_ext : Option String)
deriving DecidableEq, Repr

/-- The validation performed by `Address.__init__` before any field is
stored.  Only lengths are checked; characters are not required to be
digits. -/
def baseInitCheck (state zipcode : String) (zipcode_ext : Option String) : Except ParseErr Unit :=
  if state.length ≠ 2 then
    .error (.valueError "Invalid value for the state - Use the 2-letter FIPS abbreviation")
  else if zipcode.length ≠ 5 then
    .error (.valueError "Parameter zipcode should be 5 digits long")
  else
    match zipcode_ext with
    | some e =>
      if e.length ≠ 4 then .error (.valueError "Parameter zipcode_ext should either be None or 4 digits long")
      else .ok ()
    | none => .ok ()

/-- `Address(city, state, zipcode, zipcode_ext)`: the base constructor.
All four stored fields are uppercased. -/
def Address.init (city state zipcode : String) (zipcode_ext : Option String) : Except ParseErr Address :=
  match baseInitCheck state zipcode zipcode_ext with
  | .error e => .error e
  | .ok () => .ok (.base (pyUpper city) (pyUpper state) (pyUpper zipcode) (zipcode_ext.map pyUpper))

/-- `GeneralDeliveryAddress(...)` (no extra parameters or checks). -/
def mkGeneralDelivery (city state zipcode : String) (zipcode_ext : Option String) : Except ParseErr Address :=
  match baseInitCheck state zipcode zipcode_ext with
  | .error e => .error e
  | .ok () => .ok (.generalDelivery (pyUpper city) (pyUpper state) (pyUpper zipcode) (zipcode_ext.map pyUpper))

/-- `HighwayContractRouteAddress(...)`: route and box numbers are
uppercased on storage. -/
def mkHighwayContractRoute (route_number box_number city state zipcode : String) (zipcode_ext : Option String) :
    Except ParseErr Address :=
  match baseInitCheck state zipcode zipcode_ext with
  | .error e => .error e
  | .ok () => .ok (.highwayContractRoute (pyUpper route_number) (pyUpper box_number)
      (pyUpper city) (pyUpper state) (pyUpper zipcode) (zipcode_ext.map pyUpper))

/-- `OverseasMilitaryAddress(...)`.  The source's validity test is
`if address_type.upper() not in address_type:` — a substring check of the
uppercased candidate against the candidate *itself*, not against the
`valid_address_types` tuple it just built.  The three extra fields are
stored without uppercasing. -/
def mkOverseasMilitary (address_type address_number box_number city state zipcode : String)
    (zipcode_ext : Option String) : Except ParseErr Address :=
  match baseInitCheck state zipcode zipcode_ext with
  | .error e => .error e
  | .ok () =>
    if pyIn (pyUpper address_type) address_type = false then
      .error (.valueError "Invalid value for address_type, address_type must be one of: CPR, OPC, PSC, UPR, UNIT")
    else
      .ok (.overseasMilitary address_type address_number box_number
        (pyUpper city) (pyUpper state) (pyUpper zipcode) (zipcode_ext.map pyUpper))

/-- `PostOfficeBoxAddress(...)`: the box number is uppercased. -/
def mkPostOfficeBox (box_number city state zipcode : String) (zipcode_ext : Option String) :
    Except ParseErr Address :=
  match baseInitCheck state zipcode zipcode_ext with
  | .error e => .error e
  | .ok () => .ok (.postOfficeBox (pyUpper box_number)
      (pyUpper city) (pyUpper state) (pyUpper zipcode) (zipcode_ext.map pyUpper))

/-- `RuralRouteAddress(...)`: route and box numbers are uppercased. -/
def mkRuralRoute (route_number box_number city state zipcode : String) (zipcode_ext : Option String) :
    Except ParseErr Address :=
  match baseInitCheck state zipcode zipcode_ext with
  | .error e => .error e
  | .ok () => .ok (.ruralRoute (pyUpper route_number) (pyUpper box_number)
      (pyUpper city) (pyUpper state) (pyUpper zipcode) (zipcode_ext.map pyUpper))

/-- `StandardAddress(...)`: the seven optional fields are stored exactly
as passed. -/
def mkStandard (address_number predirectional street_name suffix postdirectional address2_type address2 : Option String)
    (city state zipcode : String) (zipcode_ext : Option String) : Except ParseErr Address :=
  match baseInitCheck state zipcode zipcode_ext with
  | .error e => .error e
  | .ok () => .ok (.standard address_number predirectional street_name suffix postdirectional address2_type address2
      (pyUpper city) (pyUpper state) (pyUpper zipcode) (zipcode_ext.map pyUpper))

/-! ### Disambiguation engine (lines 301-450 of `Address.parse`) -/

/-- Python list indexing with a dummy default.  Every use below is guarded
by a length check, exactly as in the source. -/
def tokAt (ts : List Token) (i : Nat) : Token :=
  ts.getD i ⟨"", .word, 0⟩

/-- Consumption of the address number at the head of the token list
(lines 356-364).  Python operator precedence makes the guard
`(len(ts) >= 2 and ts[0].type_ in {NUMBER, FRACTION, DECIMAL}) or
("-" in ts[0].literal)`: the constant `_AddressToken.TYPE_NUMBERSUFFIXED`
in the written condition is a non-empty string, hence always truthy, so
the parenthesized disjunct reduces to the hyphen test.  Returns the
consumed address number (if any) and the remaining tokens. -/
def consumeAddressNumber : List Token → Option String × List Token
  | [] => (none, [])
  | t0 :: rest =>
    if (2 ≤ (t0 :: rest).length ∧ (t0.ty = .number ∨ t0.ty = .fraction ∨ t0.ty = .decimal))
        ∨ pyCharIn '-' t0.literal then
      if t0.ty = .number then
        match rest with
        | t1 :: rest2 =>
          if t1.ty = .fraction then (some (t0.literal ++ " " ++ t1.literal), rest2)
          else (some t0.literal, rest)
        | [] =>
          -- Unreachable from the tokenizer: a Number-kind literal never
          -- contains a hyphen, so a singleton list cannot pass the guard
          -- with kind Number.  (Python would raise IndexError here.)
          (some t0.literal, [])
      else (some t0.literal, rest)
    else (none, t0 :: rest)

/-- The scan of lines 369-386: finds the last secondary-unit-indicator
index (`address2_index`), the last street-suffix index (`suffix_index`),
rejects a second pound sign, a pound sign directly after a unit
indicator, and any Special token.  `i` is the running position, `seen`
is `already_seen_hashtag`. -/
def scanTokens : List Token → Nat → Option Nat → Option Nat → Bool →
    Except ParseErr (Option Nat × Option Nat)
  | [], _, a2, sfx, _ => .ok (a2, sfx)
  | t :: rest, i, a2, sfx, seen =>
    let a2a := if SECONDARY_UNIT_INDICATORS.contains (stripDots t.literal) then some i else a2
    let sfxa := if STREET_SUFFIXES.contains (stripDots t.literal) then some i else sfx
    if t.ty = .pound then
      if seen then
        .error (.addressParseError "only at most one pound sign (#) is permitted in an address" t.index)
      else if (match a2a with | some j => i == j + 1 | none => false) then
        .error (.addressParseError "cannot have pound sign (#) if unit specifier is already present" t.index)
      else
        scanTokens rest (i + 1) (some i) sfxa true
    else if t.ty = .special then
      .error (.addressParseError "unexpected token" t.index)
    else
      scanTokens rest (i + 1) a2a sfxa seen

/-- The tail of the standard-address branch (lines 406-450): pop a
postdirectional, re-validate the suffix index, extract predirectional /
street name / suffix, normalize, and construct the `StandardAddress`.
`ts1` is the token list after the secondary address was truncated away. -/
def finishStandard (address_number address2_type address2 : Option String) (ts1 : List Token)
    (suffix_index0 : Option Nat) (city state zipcode : String) (zipcode_ext : Option String) :
    Except ParseErr Address :=
  -- check for a postdirectional at the end
  let pd : Option String × List Token :=
    match ts1.getLast? with
    | some t =>
      if DIRECTIONS_LIST.contains (stripDots t.literal) then (some t.literal, ts1.dropLast)
      else (none, ts1)
    | none => (none, ts1)
  let postdirectional0 := pd.1
  let ts := pd.2
  -- the "suffix" was not the true suffix if it is not at the end now
  let suffix_index : Option Nat :=
    match suffix_index0 with
    | some s => if 1 < ts.length - s then none else some s
    | none => none
  let psn : Option String × String × Option String :=  -- predirectional, street_name, suffix
    match suffix_index with
    | none =>
      match ts with
      | t0 :: t1 :: rest2 =>
        if DIRECTIONS_LIST.contains (stripDots t0.literal) then
          (some t0.literal, joinSep " " ((t1 :: rest2).map Token.literal), none)
        else (none, joinSep " " (ts.map Token.literal), none)
      | _ => (none, joinSep " " (ts.map Token.literal), none)
    | some s =>
      let isPre := 1 < s ∧ DIRECTIONS_LIST.contains (stripDots (tokAt ts 0).literal)
      let street_start : Nat := if isPre then 1 else 0
      (if isPre then some (tokAt ts 0).literal else none,
       joinSep " " (((ts.drop street_start).take (s - street_start)).map Token.literal),
       some (tokAt ts s).literal)
  -- more standardization of the address
  let predirectional1 := (psn.1.map stripNonAlpha).map (fun p => (dictGet DIRECTIONS_MAPPING p).getD p)
  let postdirectional1 := (postdirectional0.map stripNonAlpha).map (fun p => (dictGet DIRECTIONS_MAPPING p).getD p)
  let suffix1 := (psn.2.2.map stripNonAlpha).map (fun p => (dictGet STREET_SUFFIX_MAPPING p).getD p)
  -- hyphens in the street name are replaced with spaces
  let street_name1 := String.mk (psn.2.1.data.map (fun c => if c = '-' then ' ' else c))
  mkStandard address_number predirectional1 (some street_name1) suffix1 postdirectional1
    address2_type address2 city state zipcode zipcode_ext

/-- The standard-address branch (lines 346-450). -/
def standardBranch (ts0 : List Token) (city state zipcode : String) (zipcode_ext : Option String) :
    Except ParseErr Address :=
  let an := consumeAddressNumber ts0
  let address_number := an.1
  let ts := an.2
  match scanTokens ts 0 none none false with
  | .error e => .error e
  | .ok (a2idx0, suffix_index0) =>
    -- the secondary address must be after the street suffix
    let a2idx : Option Nat :=
      match suffix_index0, a2idx0 with
      | some s, some a => if a ≤ s then none else some a
      | _, a => a
    match a2idx with
    | some ai =>
      if ai = ts.length - 1 then
        .error (.addressParseError "missing number for secondary address"
          ((tokAt ts (ts.length - 1)).index + (tokAt ts (ts.length - 1)).literal.length))
      else
        finishStandard address_number (some (tokAt ts ai).literal)
          (some (joinSep " " ((ts.drop (ai + 1)).map Token.literal)))
          (ts.take ai) suffix_index0 city state zipcode zipcode_ext
    | none =>
      finishStandard address_number none none ts suffix_index0 city state zipcode zipcode_ext

/-- Shape classification (lines 305-450), applied to the lexed tokens and
the already-parsed last-line fields. -/
def classifyTokens (ts : List Token) (city state zipcode : String) (zipcode_ext : Option String) :
    Except ParseErr Address :=
  match ts with
  | [] => .error (.addressParseError "no valid tokens found" 0)
  | t0 :: _ =>
    if ts.length = 2 ∧ t0.literal = "GENERAL" ∧ (tokAt ts 1).literal = "DELIVERY" then
      mkGeneralDelivery city state zipcode zipcode_ext
    else if ["HC", "RR", "CPR", "OPC", "PSC", "UPR", "UNIT"].contains (stripNonAlnum t0.literal)
        ∧ (3 ≤ ts.length ∧ (tokAt ts 2).literal = "BOX") then
      -- route_address_type is only used in error messages
      let route_address_type :=
        if t0.literal ∉ (["HC", "RR"] : List String) then "overseas military"
        else if t0.literal = "HC" then "highway contract route" else "rural route"
      if ts.length < 4 then
        .error (.addressParseError ("missing box number in " ++ route_address_type ++ " address")
          ((tokAt ts (ts.length - 1)).index + (tokAt ts (ts.length - 1)).literal.length))
      else if ¬ ((tokAt ts 1).ty = .number ∨ (tokAt ts 1).ty = .numbersuffixed) then
        .error (.addressParseError ("invalid " ++ route_address_type ++ " number, cannot begin with a letter or symbol")
          (tokAt ts 1).index)
      else
        let route_number := (tokAt ts 1).literal
        let box_number := (tokAt ts 3).literal
        if t0.literal = "HC" then
          mkHighwayContractRoute route_number box_number city state zipcode zipcode_ext
        else if t0.literal = "RR" then
          mkRuralRoute route_number box_number city state zipcode zipcode_ext
        else
          -- for overseas military the "route number" is the address number
          mkOverseasMilitary t0.literal route_number box_number city state zipcode zipcode_ext
    else if 2 ≤ ts.length ∧ stripNonAlnum t0.literal = "PO" ∧ (tokAt ts 1).literal = "BOX" then
      if ts.length < 3 then
        .error (.addressParseError "missing box number in post office box address"
          ((tokAt ts (ts.length - 1)).index + (tokAt ts (ts.length - 1)).literal.length))
      else
        let po_box_number := (tokAt ts 2).literal
        let po_box_number :=
          match po_box_number.data with
          | '-' :: cs => "0" ++ String.mk cs
          | _ => po_box_number
        mkPostOfficeBox po_box_number city state zipcode zipcode_ext
    else if 3 ≤ ts.length ∧ stripNonAlnum t0.literal = "P" ∧ stripNonAlnum (tokAt ts 1).literal = "O"
        ∧ (tokAt ts 2).literal = "BOX" then
      if ts.length < 4 then
        .error (.addressParseError "missing box number in post office box address"
          ((tokAt ts (ts.length - 1)).index + (tokAt ts (ts.length - 1)).literal.length))
      else
        let po_box_number := (tokAt ts 3).literal
        let po_box_number :=
          match po_box_number.data with
          | '-' :: cs => "0" ++ String.mk cs
          | _ => po_box_number
        mkPostOfficeBox po_box_number city state zipcode zipcode_ext
    else
      standardBranch ts city state zipcode zipcode_ext

set_option linter.unusedVariables false in
/-- `Address.parse(delivery_address, last_line)`, parameterized by the
highway-name table that is in scope in the source module.  The table is
never consulted by any code path of `parse` (the reference to it at line
418 of the source is only a TODO comment). -/
def parseWith (highway_mapping : List (String × String)) (delivery_address last_line : String) :
    Except ParseErr Address :=
  match parseLastLine last_line with
  | .error e => .error e
  | .ok (city, state, zipcode, zipcode_ext) =>
    match lexDeliveryAddress (pyStrip (pyUpper delivery_address)) with
    | .error e => .error e
    | .ok ts => classifyTokens ts city state zipcode zipcode_ext

/-- The public entry point `Address.parse`. -/
def parse (delivery_address last_line : String) : Except ParseErr Address :=
  parseWith HIGHWAY_MAPPING delivery_address last_line

/-! ### Rendering, equality, and repr -/

/-- `Address.zipcode_full`: ZIP+4 when the extension is present. -/
def zipcodeFull (zipcode : String) (zipcode_ext : Option String) : String :=
  match zipcode_ext with
  | none => zipcode
  | some e => zipcode ++ "-" ++ e

/-- The common `(city, state, zipcode, zipcode_ext)` quadruple of a
variant. -/
def baseFields : Address → String × String × String × Option String
  | .base c s z e => (c, s, z, e)
  | .generalDelivery c s z e => (c, s, z, e)
  | .highwayContractRoute _ _ c s z e => (c, s, z, e)
  | .overseasMilitary _ _ _ c s z e => (c, s, z, e)
  | .postOfficeBox _ c s z e => (c, s, z, e)
  | .ruralRoute _ _ c s z e => (c, s, z, e)
  | .standard _ _ _ _ _ _ _ c s z e => (c, s, z, e)

/-- The 5-digit zipcode field of a variant. -/
def zipcodeOf (a : Address) : String :=
  (baseFields a).2.2.1

/-- `Address.__str__` for the base fields: `"\n" + city + " " + state +
" " + zipcode_full`. -/
def lastLineStr (city state zipcode : String) (zipcode_ext : Option String) : String :=
  "\n" ++ city ++ " " ++ state ++ " " ++ zipcodeFull zipcode zipcode_ext

/-- `StandardAddress.as_tuple()`: the seven optional fields in USPS order. -/
def asTuple (address_number predirectional street_name suffix postdirectional address2_type address2 :
    Option String) : List (Option String) :=
  [address_number, predirectional, street_name, suffix, postdirectional, address2_type, address2]

/-- `__str__` of each variant: the canonical two-line rendering (the two
lines are joined by the newline contributed by the base `__str__`). -/
def addrStr : Address → String
  | .base c s z e => lastLineStr c s z e
  | .generalDelivery c s z e => "GENERAL DELIVERY" ++ lastLineStr c s z e
  | .highwayContractRoute r b c s z e => "HC " ++ r ++ " BOX " ++ b ++ lastLineStr c s z e
  | .overseasMilitary t n b c s z e => t ++ " " ++ n ++ " BOX " ++ b ++ lastLineStr c s z e
  | .postOfficeBox b c s z e => "PO BOX " ++ b ++ lastLineStr c s z e
  | .ruralRoute r b c s z e => "RR " ++ r ++ " BOX " ++ b ++ lastLineStr c s z e
  | .standard an pd sn sf po a2t a2 c s z e =>
    joinSep " " ((asTuple an pd sn sf po a2t a2).filterMap id) ++ lastLineStr c s z e

/-- `Address.__eq__` on the base fields: same city, state, and combined
ZIP+4 string. -/
def baseEqB (c1 s1 z1 : String) (e1 : Option String) (c2 s2 z2 : String) (e2 : Option String) : Bool :=
  c1 == c2 && s1 == s2 && zipcodeFull z1 e1 == zipcodeFull z2 e2

/-- `__eq__` across variants: the `type_` tags must agree (so different
variants are never equal), then the base fields and the variant-specific
fields are compared. -/
def addrEq : Address → Address → Bool
  | .base c1 s1 z1 e1, .base c2 s2 z2 e2 => baseEqB c1 s1 z1 e1 c2 s2 z2 e2
  | .generalDelivery c1 s1 z1 e1, .generalDelivery c2 s2 z2 e2 => baseEqB c1 s1 z1 e1 c2 s2 z2 e2
  | .highwayContractRoute r1 b1 c1 s1 z1 e1, .highwayContractRoute r2 b2 c2 s2 z2 e2 =>
    baseEqB c1 s1 z1 e1 c2 s2 z2 e2 && r1 == r2 && b1 == b2
  | .overseasMilitary t1 n1 b1 c1 s1 z1 e1, .overseasMilitary t2 n2 b2 c2 s2 z2 e2 =>
    baseEqB c1 s1 z1 e1 c2 s2 z2 e2 && t1 == t2 && n1 == n2 && b1 == b2
  | .postOfficeBox b1 c1 s1 z1 e1, .postOfficeBox b2 c2 s2 z2 e2 =>
    baseEqB c1 s1 z1 e1 c2 s2 z2 e2 && b1 == b2
  | .ruralRoute r1 b1 c1 s1 z1 e1, .ruralRoute r2 b2 c2 s2 z2 e2 =>
    baseEqB c1 s1 z1 e1 c2 s2 z2 e2 && r1 == r2 && b1 == b2
  | .standard an1 pd1 sn1 sf1 po1 a2t1 a21 c1 s1 z1 e1, .standard an2 pd2 sn2 sf2 po2 a2t2 a22 c2 s2 z2 e2 =>
    baseEqB c1 s1 z1 e1 c2 s2 z2 e2
      && asTuple an1 pd1 sn1 sf1 po1 a2t1 a21 == asTuple an2 pd2 sn2 sf2 po2 a2t2 a22
  | _, _ => false

/-- Python `repr` of a string value (the stored strings contain no quotes
or backslashes, so no escaping is needed). -/
def pyReprStr (s : String) : String :=
  "'" ++ s ++ "'"

/-- `Address.__repr__` for the base fields. -/
def baseRepr (c s z : String) (e : Option String) : String :=
  "addressutil.Address(city=" ++ pyReprStr c ++ ", state=" ++ pyReprStr s ++ ", zipcode=" ++ pyReprStr z
    ++ ", zipcode_ext=" ++ (match e with | none => "<uninitialized>" | some x => pyReprStr x) ++ ")"

/-- `__repr__` of each variant.  `Address.__hash__` is
`hash(self.__repr__())`, so within one process the hash value is a fixed
function of this string. -/
def addrRepr : Address → String
  | .base c s z e => baseRepr c s z e
  | .generalDelivery c s z e => "addressutil.GeneralDeliveryAddress(" ++ baseRepr c s z e ++ ")"
  | .highwayContractRoute r b c s z e =>
    "addressutil.HighwayContractRouteAddress(route_number=" ++ pyReprStr r ++ ", box_number=" ++ pyReprStr b
      ++ ", " ++ baseRepr c s z e ++ ")"
  | .overseasMilitary t n b c s z e =>
    "addressutil.OverseasMilitaryAddress(address_type=" ++ pyReprStr t ++ ", address_number=" ++ pyReprStr n
      ++ ", box_number=" ++ pyReprStr b ++ ", " ++ baseRepr c s z e ++ ")"
  | .postOfficeBox b c s z e =>
    "addressutil.PostOfficeBoxAddress(box_number=" ++ pyReprStr b ++ ", " ++ baseRepr c s z e ++ ")"
  | .ruralRoute r b c s z e =>
    "addressutil.RuralRouteAddress(route_number=" ++ pyReprStr r ++ ", box_number=" ++ pyReprStr b
      ++ ", " ++ baseRepr c s z e ++ ")"
  | .standard an pd sn sf po a2t a2 c s z e =>
    "addressutil.StandardAddress("
      ++ joinSep ", " ((asTuple an pd sn sf po a2t a2).map
          (fun x => match x with | none => "<unspecified>" | some v => pyReprStr v))
      ++ ", " ++ baseRepr c s z e ++ ")"

/-! ### Round-trip (the property asserted by the module's self-test) -/

/-- `Address.parse(d, l)` succeeds, and re-parsing the two lines of the
canonical rendering `str(A).split("\n")` yields an address `==`-equal to
`A`. -/
def roundTripStrict (d l : String) : Bool :=
  match parse d l with
  | .error _ => false
  | .ok a =>
    match splitChar '\n' (addrStr a) with
    | [d2, l2] =>
      match parse d2 l2 with
      | .ok a2 => addrEq a a2
      | .error _ => false
    | _ => false

/-- State of `address2_index` after the lines 369-386 scan has processed
a pound-free, special-free prefix: the last indicator position wins. -/
def a2Fold : List Token → Nat → Option Nat → Option Nat
  | [], _, a2 => a2
  | t :: rest, i, a2 =>
    a2Fold rest (i + 1) (if SECONDARY_UNIT_INDICATORS.contains (stripDots t.literal) then some i else a2)

/-- State of `suffix_index` after the scan has processed such a prefix. -/
def sfxFold : List Token → Nat → Option Nat → Option Nat
  | [], _, sfx => sfx
  | t :: rest, i, sfx =>
    sfxFold rest (i + 1) (if STREET_SUFFIXES.contains (stripDots t.literal) then some i else sfx)

deriving instance DecidableEq for Except

/-! ### Helper lemmas -/

theorem listPrefixOf_self (l : List Char) : listPrefixOf l l = true := by
  induction l with
  | nil => rfl
  | cons c cs ih => simp [listPrefixOf, ih]

/-- Every string is a substring of itself, so the self-referential
membership test of `OverseasMilitaryAddress.__init__` always passes on an
uppercase-fixed input. -/
theorem pyIn_self (s : String) : pyIn s s = true := by
  unfold pyIn
  cases h : s.data with
  | nil => rfl
  | cons c cs => simp [listInfixOf, listPrefixOf_self]

theorem baseInitCheck_ok (state zipcode : String) (ext : Option String)
    (hstate : state.length = 2) (hzip : zipcode.length = 5)
    (hext : ext = none ∨ ∃ e, ext = some e ∧ e.length = 4) :
    baseInitCheck state zipcode ext = .ok () := by
  unfold baseInitCheck
  rcases hext with h | ⟨e, he, hlen⟩
  · subst h
    simp [hstate, hzip]
  · subst he
    simp [hstate, hzip, hlen]

theorem stringExt (a b : String) (h : a.data = b.data) : a = b :=
  congrArg String.mk h

/-- With 5-character ZIP codes, the combined ZIP+4 string determines the
ZIP code and the extension. -/
theorem zipcodeFull_inj (z1 z2 : String) (e1 e2 : Option String)
    (h1 : z1.length = 5) (h2 : z2.length = 5)
    (hf : zipcodeFull z1 e1 = zipcodeFull z2 e2) : z1 = z2 ∧ e1 = e2 := by
  rcases e1 with _ | x1 <;> rcases e2 with _ | x2 <;> simp only [zipcodeFull] at hf
  · exact ⟨hf, rfl⟩
  · exfalso
    have hlen := congrArg String.length hf
    simp only [String.length_append] at hlen
    have : ("-" : String).length = 1 := rfl
    omega
  · exfalso
    have hlen := congrArg String.length hf
    simp only [String.length_append] at hlen
    have : ("-" : String).length = 1 := rfl
    omega
  · have hd := congrArg String.data hf
    simp only [String.data_append] at hd
    rw [List.append_assoc, List.append_assoc] at hd
    have hlen : z1.data.length = z2.data.length := by
      have e1 : z1.data.length = z1.length := rfl
      have e2 : z2.data.length = z2.length := rfl
      omega
    obtain ⟨hz, hx⟩ := List.append_inj hd hlen
    have hx2 : x1.data = x2.data := by
      simpa using hx
    exact ⟨stringExt _ _ hz, by rw [stringExt _ _ hx2]⟩

theorem scanTokens_append (u rest : List Token) (i : Nat) (a2 sfx : Option Nat) (seen : Bool)
    (hu : ∀ t ∈ u, t.ty ≠ TType.pound ∧ t.ty ≠ TType.special) :
    scanTokens (u ++ rest) i a2 sfx seen =
      scanTokens rest (i + u.length) (a2Fold u i a2) (sfxFold u i sfx) seen := by
  induction u generalizing i a2 sfx with
  | nil => simp [a2Fold, sfxFold]
  | cons t u ih =>
    have ht := hu t (by simp)
    have hrest : ∀ x ∈ u, x.ty ≠ TType.pound ∧ x.ty ≠ TType.special := fun x hx => hu x (by simp [hx])
    simp only [List.cons_append, scanTokens, List.append_eq]
    rw [if_neg ht.1, if_neg ht.2, ih _ _ _ hrest]
    have harith : i + 1 + u.length = i + (t :: u).length := by
      simp only [List.length_cons]
      omega
    rw [harith]
    rfl

theorem scanTokens_seen_pound (v w : List Token) (p2 : Token) (i : Nat) (a2 sfx : Option Nat)
    (hv : ∀ t ∈ v, t.ty ≠ TType.pound ∧ t.ty ≠ TType.special) (hp2 : p2.ty = TType.pound) :
    scanTokens (v ++ p2 :: w) i a2 sfx true =
      .error (.addressParseError "only at most one pound sign (#) is permitted in an address" p2.index) := by
  induction v generalizing i a2 sfx with
  | nil =>
    simp [scanTokens, hp2]
  | cons t v ih =>
    have ht := hv t (by simp)
    simp only [List.cons_append, scanTokens]
    rw [if_neg ht.1, if_neg ht.2]
    exact ih _ _ _ (fun x hx => hv x (by simp [hx]))

theorem a2Fold_lt (u : List Token) (i : Nat) (a2 : Option Nat)
    (h : ∀ j, a2 = some j → j < i) :
    ∀ j, a2Fold u i a2 = some j → j < i + u.length := by
  induction u generalizing i a2 with
  | nil =>
    intro j hj
    have := h j hj
    simp only [List.length_nil]
    omega
  | cons t u ih =>
    intro j hj
    simp only [a2Fold] at hj
    have step : ∀ k, (if SECONDARY_UNIT_INDICATORS.contains (stripDots t.literal) then some i else a2) = some k → k < i + 1 := by
      intro k hk
      by_cases hc : SECONDARY_UNIT_INDICATORS.contains (stripDots t.literal) = true
      · rw [if_pos hc] at hk
        cases hk
        omega
      · rw [if_neg hc] at hk
        have := h k hk
        omega
    have := ih (i + 1) _ step j hj
    simp only [List.length_cons]
    omega

theorem a2Fold_append (x y : List Token) (i : Nat) (a2 : Option Nat) :
    a2Fold (x ++ y) i a2 = a2Fold y (i + x.length) (a2Fold x i a2) := by
  induction x generalizing i a2 with
  | nil => simp [a2Fold]
  | cons t x ih =>
    simp only [List.cons_append, a2Fold, List.append_eq, ih, List.length_cons]
    have harith : i + 1 + x.length = i + (x.length + 1) := by omega
    rw [harith]

theorem a2Fold_no_last_hit (u : List Token)
    (hlast : ∀ t, u.getLast? = some t →
      SECONDARY_UNIT_INDICATORS.contains (stripDots t.literal) = false) :
    ∀ j, a2Fold u 0 none = some j → j + 1 < u.length := by
  induction u using List.reverseRecOn with
  | nil =>
    intro j hj
    simp [a2Fold] at hj
  | append_singleton us t _ =>
    intro j hj
    rw [a2Fold_append] at hj
    have hind : SECONDARY_UNIT_INDICATORS.contains (stripDots t.literal) = false :=
      hlast t (List.getLast?_concat us)
    simp only [a2Fold, hind] at hj
    simp only [Bool.false_eq_true, if_false] at hj
    have := a2Fold_lt us 0 none (by intro k hk; cases hk) j hj
    simp only [List.length_append, List.length_cons, List.length_nil]
    omega

/-- The base-class validation fails on every length violation (with one of
its three `ValueError` messages). -/
theorem baseInitCheck_error_of_bad (state zipcode : String) (ext : Option String)
    (h : state.length ≠ 2 ∨ zipcode.length ≠ 5 ∨ ∃ e, ext = some e ∧ e.length ≠ 4) :
    ∃ msg, baseInitCheck state zipcode ext = .error (.valueError msg) := by
  unfold baseInitCheck
  by_cases h1 : state.length ≠ 2
  · exact ⟨_, if_pos h1⟩
  · rw [if_neg h1]
    by_cases h2 : zipcode.length ≠ 5
    · exact ⟨_, if_pos h2⟩
    · rw [if_neg h2]
      rcases h with ha | hb | ⟨e, he, hlen⟩
      · exact absurd ha h1
      · exact absurd hb h2
      · subst he
        exact ⟨_, if_pos hlen⟩

/-- Conversely, when the base-class validation passes, all three length
conditions hold. -/
theorem baseInitCheck_ok_lengths (state zipcode : String) (ext : Option String)
    (h : baseInitCheck state zipcode ext = .ok ()) :
    state.length = 2 ∧ zipcode.length = 5 ∧ ∀ e, ext = some e → e.length = 4 := by
  unfold baseInitCheck at h
  by_cases h1 : state.length ≠ 2
  · rw [if_pos h1] at h
    cases h
  · rw [if_neg h1] at h
    by_cases h2 : zipcode.length ≠ 5
    · rw [if_pos h2] at h
      cases h
    · rw [if_neg h2] at h
      push_neg at h1 h2
      refine ⟨h1, h2, ?_⟩
      intro e he
      subst he
      by_cases h3 : e.length = 4
      · exact h3
      · exfalso
        simp [h3] at h

/-- Uppercasing preserves string length. -/
theorem pyUpper_length (s : String) : (pyUpper s).length = s.length := by
  show (s.data.map Char.toUpper).length = s.data.length
  simp

/-! ### Claim theorems -/

/-- C1, counterexample.  The round-trip idempotence claim fails on the
input `("123 MAIN-ST", "SPRINGFIELD IL 12345")`: the parse succeeds
(street name `MAIN ST` after hyphen replacement), but re-parsing the
canonical rendering `123 MAIN ST` recognizes `ST` as a street suffix and
yields a different address. -/
theorem c1_roundtrip_counterexample :
    parse "123 MAIN-ST" "SPRINGFIELD IL 12345" =
      .ok (.standard (some "123") none (some "MAIN ST") none none none none
        "SPRINGFIELD" "IL" "12345" none)
    ∧ roundTripStrict "123 MAIN-ST" "SPRINGFIELD IL 12345" = false := by
  constructor
  · decide
  · decide

/-- C1, amended.  Round-trip idempotence holds for each of the 14
delivery-address/last-line pairs exercised (and asserted) by the module's
own self-test harness. -/
theorem c1_roundtrip_selftest :
    roundTripStrict "123 N. MAIN ST." "CHICAGO IL 12345" = true
    ∧ roundTripStrict "4725 NORTHWEST 193RD COURT" "CHICAGO, IL, 29525-9186" = true
    ∧ roundTripStrict "1552 COUNTY ROAD 252" "CHICAGO IL 12345-6789" = true
    ∧ roundTripStrict "1480 Inner Road" "Gainesville, FL 32611" = true
    ∧ roundTripStrict "General Delivery" "Gainesville, FL, 32601" = true
    ∧ roundTripStrict "1234 S.E. BROADWAY AVE UNIT 5" "NEW YORK, NY, 10002" = true
    ∧ roundTripStrict "PO BOX 15" "SPRINGFIELD IL 12345" = true
    ∧ roundTripStrict "P.O. BOX C" "SPRINGFIELD IL 12345" = true
    ∧ roundTripStrict "123 MAIN ST # 45" "SPRINGFIELD IL 12345" = true
    ∧ roundTripStrict "123 MAIN ST #45" "SPRINGFIELD IL 12345" = true
    ∧ roundTripStrict "51 1/2 362ND COURT SE" "CHICAGO, IL, 56124-7162" = true
    ∧ roundTripStrict "201 FILBERT ST,STE 700" "SAN FRANCISCO CA 94133-3242" = true
    ∧ roundTripStrict "P. O. BOX 123" "SPRINGFIELD IL 12345" = true
    ∧ roundTripStrict "P. O. BOX 123B" "SPRINGFIELD IL 12345" = true := by
  refine ⟨?_, ?_, ?_, ?_, ?_, ?_, ?_, ?_, ?_, ?_, ?_, ?_, ?_, ?_⟩ <;> decide

/-- C2, counterexample.  Direct construction with a zipcode of five
non-digit characters does NOT raise: only lengths are checked, so an
`Address` instance whose zipcode is `"ABCDE"` exists, violating the
digits-only part of the §3 invariant. -/
theorem c2_lengths_only_counterexample :
    Address.init "SPRINGFIELD" "IL" "ABCDE" none =
      .ok (.base "SPRINGFIELD" "IL" "ABCDE" none) := by
  decide

/-- C2, amended.  Direct construction of any Address variant raises a
`ValueError` whenever the state is not exactly 2 characters, or the
zipcode is not exactly 5 characters, or the extension is present and not
exactly 4 characters: the base-class check runs first in every variant's
constructor, so no constructible instance violates the length part of the
invariant.  Digit-ness is never checked (see the counterexample), and
`OverseasMilitaryAddress` may additionally raise through its designator
check even when all lengths are valid. -/
theorem c2_construction_length_checks :
    (∀ (city state zipcode : String) (ext : Option String),
      state.length ≠ 2 ∨ zipcode.length ≠ 5 ∨ (∃ e, ext = some e ∧ e.length ≠ 4) →
      ∃ msg,
        Address.init city state zipcode ext = .error (.valueError msg)
        ∧ mkGeneralDelivery city state zipcode ext = .error (.valueError msg)
        ∧ (∀ r b, mkHighwayContractRoute r b city state zipcode ext = .error (.valueError msg))
        ∧ (∀ t n b, mkOverseasMilitary t n b city state zipcode ext = .error (.valueError msg))
        ∧ (∀ b, mkPostOfficeBox b city state zipcode ext = .error (.valueError msg))
        ∧ (∀ r b, mkRuralRoute r b city state zipcode ext = .error (.valueError msg))
        ∧ (∀ an pd sn sf po a2t a2,
            mkStandard an pd sn sf po a2t a2 city state zipcode ext = .error (.valueError msg)))
    ∧ (∀ a : Address,
        ((∃ city state zipcode ext, Address.init city state zipcode ext = .ok a)
          ∨ (∃ city state zipcode ext, mkGeneralDelivery city state zipcode ext = .ok a)
          ∨ (∃ r b city state zipcode ext, mkHighwayContractRoute r b city state zipcode ext = .ok a)
          ∨ (∃ t n b city state zipcode ext, mkOverseasMilitary t n b city state zipcode ext = .ok a)
          ∨ (∃ b city state zipcode ext, mkPostOfficeBox b city state zipcode ext = .ok a)
          ∨ (∃ r b city state zipcode ext, mkRuralRoute r b city state zipcode ext = .ok a)
          ∨ (∃ an pd sn sf po a2t a2 city state zipcode ext,
              mkStandard an pd sn sf po a2t a2 city state zipcode ext = .ok a)) →
        (baseFields a).2.1.length = 2 ∧ (baseFields a).2.2.1.length = 5
          ∧ ∀ e, (baseFields a).2.2.2 = some e → e.length = 4) := by
  constructor
  · intro city state zipcode ext h
    obtain ⟨msg, hmsg⟩ := baseInitCheck_error_of_bad state zipcode ext h
    refine ⟨msg, ?_, ?_, fun r b => ?_, fun t n b => ?_, fun b => ?_, fun r b => ?_,
        fun an pd sn sf po a2t a2 => ?_⟩ <;>
      simp only [Address.init, mkGeneralDelivery, mkHighwayContractRoute, mkOverseasMilitary,
        mkPostOfficeBox, mkRuralRoute, mkStandard, hmsg]
  · intro a ha
    have final : ∀ (s z : String) (e : Option String), baseInitCheck s z e = .ok () →
        (pyUpper s).length = 2 ∧ (pyUpper z).length = 5
          ∧ ∀ x, e.map pyUpper = some x → x.length = 4 := by
      intro s z e hchk
      obtain ⟨h1, h2, h3⟩ := baseInitCheck_ok_lengths s z e hchk
      refine ⟨?_, ?_, ?_⟩
      · rw [pyUpper_length]
        exact h1
      · rw [pyUpper_length]
        exact h2
      · intro x hx
        rcases e with _ | e0
        · cases hx
        · simp only [Option.map_some'] at hx
          cases hx
          rw [pyUpper_length]
          exact h3 e0 rfl
    rcases ha with ⟨c, s, z, e, h⟩ | ⟨c, s, z, e, h⟩ | ⟨r, b, c, s, z, e, h⟩ |
        ⟨t, n, b, c, s, z, e, h⟩ | ⟨b, c, s, z, e, h⟩ | ⟨r, b, c, s, z, e, h⟩ |
        ⟨an, pd, sn, sf, po, a2t, a2, c, s, z, e, h⟩
    · unfold Address.init at h
      cases hchk : baseInitCheck s z e with
      | error err => rw [hchk] at h; cases h
      | ok u =>
        cases u
        rw [hchk] at h
        injection h with h2
        subst h2
        simpa only [baseFields] using final s z e hchk
    · unfold mkGeneralDelivery at h
      cases hchk : baseInitCheck s z e with
      | error err => rw [hchk] at h; cases h
      | ok u =>
        cases u
        rw [hchk] at h
        injection h with h2
        subst h2
        simpa only [baseFields] using final s z e hchk
    · unfold mkHighwayContractRoute at h
      cases hchk : baseInitCheck s z e with
      | error err => rw [hchk] at h; cases h
      | ok u =>
        cases u
        rw [hchk] at h
        injection h with h2
        subst h2
        simpa only [baseFields] using final s z e hchk
    · unfold mkOverseasMilitary at h
      cases hchk : baseInitCheck s z e with
      | error err => rw [hchk] at h; cases h
      | ok u =>
        cases u
        rw [hchk] at h
        by_cases hd : pyIn (pyUpper t) t = false
        · rw [if_pos hd] at h
          cases h
        · rw [if_neg hd] at h
          injection h with h2
          subst h2
          simpa only [baseFields] using final s z e hchk
    · unfold mkPostOfficeBox at h
      cases hchk : baseInitCheck s z e with
      | error err => rw [hchk] at h; cases h
      | ok u =>
        cases u
        rw [hchk] at h
        injection h with h2
        subst h2
        simpa only [baseFields] using final s z e hchk
    · unfold mkRuralRoute at h
      cases hchk : baseInitCheck s z e with
      | error err => rw [hchk] at h; cases h
      | ok u =>
        cases u
        rw [hchk] at h
        injection h with h2
        subst h2
        simpa only [baseFields] using final s z e hchk
    · unfold mkStandard at h
      cases hchk : baseInitCheck s z e with
      | error err => rw [hchk] at h; cases h
      | ok u =>
        cases u
        rw [hchk] at h
        injection h with h2
        subst h2
        simpa only [baseFields] using final s z e hchk

/-- C2, witness: a 3-character state makes the base constructor fail. -/
theorem c2_construction_length_checks_witness :
    (Address.init "SPRINGFIELD" "ILL" "12345" none).isOk = false := by
  obtain ⟨msg, h1, _⟩ := c2_construction_length_checks.1 "SPRINGFIELD" "ILL" "12345" none (Or.inl (by decide))
  rw [h1]
  rfl

/-- C3, code bug.  `OverseasMilitaryAddress.__init__` documents that it
raises `ValueError` for an `address_type` outside {CPR, OPC, PSC, UPR,
UNIT} and even builds that tuple, but its test is
`address_type.upper() not in address_type` — membership in the candidate
string itself — so the invalid designator `"XYZ"` is accepted without
error. -/
theorem c3_invalid_designator_accepted :
    mkOverseasMilitary "XYZ" "1" "2" "APO" "AE" "09012" none =
      .ok (.overseasMilitary "XYZ" "1" "2" "APO" "AE" "09012" none) := by
  decide

/-- C5, counterexample.  `"ST.-"` lexes as a SINGLE Word token with
literal `"ST.-"`: a hyphen does not close an open token (it is in the
accumulating class of letters, digits, period, hyphen and slash), so no
separate Special token is
produced, contrary to the claimed two-token result. -/
theorem c5_tokenizer_counterexample :
    lexDeliveryAddress "ST.-" = .ok [⟨"ST.-", .word, 0⟩]
    ∧ ([⟨"ST.-", .word, 0⟩] : List Token) ≠
        [⟨"ST.", .word, 0⟩, ⟨"-", .special, 3⟩] := by
  constructor
  · decide
  · decide

/-- C5, amended.  The §8 tokenizer examples, with the `"ST.-"` item
corrected: `"123"` → one Number token, `"123."` → one Decimal token,
`"123A"` → one NumberSuffixed token, `"1/2"` → one Fraction token,
`"#"` → one Pound token, `"-"` → one Special token, and `"ST.-"` → one
Word token `"ST.-"`. -/
theorem c5_tokenizer_examples :
    lexDeliveryAddress "123" = .ok [⟨"123", .number, 0⟩]
    ∧ lexDeliveryAddress "123." = .ok [⟨"123.", .decimal, 0⟩]
    ∧ lexDeliveryAddress "123A" = .ok [⟨"123A", .numbersuffixed, 0⟩]
    ∧ lexDeliveryAddress "1/2" = .ok [⟨"1/2", .fraction, 0⟩]
    ∧ lexDeliveryAddress "#" = .ok [⟨"#", .pound, 0⟩]
    ∧ lexDeliveryAddress "-" = .ok [⟨"-", .special, 0⟩]
    ∧ lexDeliveryAddress "ST.-" = .ok [⟨"ST.-", .word, 0⟩] := by
  refine ⟨?_, ?_, ?_, ?_, ?_, ?_, ?_⟩ <;> decide

/-- C6, counterexample.  A delivery address consisting of a single Number
token is NOT consumed as the address number: the guard requires at least
two tokens (Python precedence), so `"123"` parses with `address_number =
None` and street name `"123"`. -/
theorem c6_single_number_counterexample :
    parse "123" "SPRINGFIELD IL 12345" =
      .ok (.standard none none (some "123") none none none none
        "SPRINGFIELD" "IL" "12345" none) := by
  decide

/-- C6, amended.  An address number is consumed from the front iff either
at least two tokens remain and the first is of Number/Fraction/Decimal
kind, or the first token's literal contains a hyphen (whatever its kind);
and when a Number token is immediately followed by a Fraction token both
are consumed, joined by a space. -/
theorem c6_address_number_rule :
    (∀ (t0 : Token) (rest : List Token),
      ((consumeAddressNumber (t0 :: rest)).1).isSome = true ↔
        ((rest ≠ [] ∧ (t0.ty = .number ∨ t0.ty = .fraction ∨ t0.ty = .decimal))
          ∨ pyCharIn '-' t0.literal = true))
    ∧ (∀ (t0 t1 : Token) (rest : List Token), t0.ty = .number → t1.ty = .fraction →
        consumeAddressNumber (t0 :: t1 :: rest) = (some (t0.literal ++ " " ++ t1.literal), rest)) := by
  constructor
  · intro t0 rest
    rcases rest with _ | ⟨t1, rest2⟩
    · by_cases hh : pyCharIn '-' t0.literal = true <;>
        by_cases hn : t0.ty = TType.number <;>
          simp [consumeAddressNumber, hh, hn]
    · by_cases hh : pyCharIn '-' t0.literal = true <;>
        by_cases hn : t0.ty = TType.number <;>
          by_cases hf : t1.ty = TType.fraction <;>
            by_cases hd : t0.ty = TType.fraction ∨ t0.ty = TType.decimal <;>
              simp [consumeAddressNumber, hh, hn, hf, hd, Nat.le_add_left]
  · intro t0 t1 rest h0 h1
    simp only [consumeAddressNumber]
    rw [if_pos (Or.inl ⟨by simp, Or.inl h0⟩), if_pos h0, if_pos h1]

/-- C6, witness for the amended rule: `"51"` followed by `"1/2"` is
consumed as the single address number `"51 1/2"`. -/
theorem c6_address_number_rule_witness :
    consumeAddressNumber [⟨"51", .number, 0⟩, ⟨"1/2", .fraction, 3⟩] =
      (some "51 1/2", []) := by
  have h := c6_address_number_rule.2 ⟨"51", .number, 0⟩ ⟨"1/2", .fraction, 3⟩ [] rfl rfl
  simpa using h

/-- C4, counterexample.  The branch is entered by the punctuation-STRIPPED
first literal, but dispatch compares the RAW literal, so `"HC. 5 BOX 9"`
(stripped first token `HC`) does not return a HighwayContractRouteAddress:
it falls through to OverseasMilitary with designator `"HC."`. -/
theorem c4_stripped_dispatch_counterexample :
    parse "HC. 5 BOX 9" "SPRINGFIELD IL 12345" =
      .ok (.overseasMilitary "HC." "5" "9" "SPRINGFIELD" "IL" "12345" none) := by
  decide

/-- C4, amended.  For a token sequence of at least 4 tokens entering the
route/box branch (stripped first literal in the designator set, third
literal `BOX`, second token of Number or NumberSuffixed kind), dispatch is
on the RAW first literal: exactly `"HC"` gives HighwayContractRoute,
exactly `"RR"` gives RuralRoute, and anything else gives OverseasMilitary
whose designator is the raw (unstripped) first literal and whose address
number is the second token's literal.  The uppercase-fixity hypothesis
holds for every token produced inside `parse`, which uppercases the
delivery address before lexing; the state/zip hypotheses hold for every
last line accepted by `parseLastLine`. -/
theorem c4_route_dispatch (t0 t1 t2 t3 : Token) (rest : List Token)
    (city state zipcode : String) (ext : Option String)
    (hset : (["HC", "RR", "CPR", "OPC", "PSC", "UPR", "UNIT"] : List String).contains
      (stripNonAlnum t0.literal) = true)
    (hbox : t2.literal = "BOX")
    (hkind : t1.ty = TType.number ∨ t1.ty = TType.numbersuffixed)
    (hupper : pyUpper t0.literal = t0.literal)
    (hstate : state.length = 2) (hzip : zipcode.length = 5)
    (hext : ext = none ∨ ∃ e, ext = some e ∧ e.length = 4) :
    classifyTokens (t0 :: t1 :: t2 :: t3 :: rest) city state zipcode ext =
      if t0.literal = "HC" then
        .ok (.highwayContractRoute (pyUpper t1.literal) (pyUpper t3.literal)
          (pyUpper city) (pyUpper state) (pyUpper zipcode) (ext.map pyUpper))
      else if t0.literal = "RR" then
        .ok (.ruralRoute (pyUpper t1.literal) (pyUpper t3.literal)
          (pyUpper city) (pyUpper state) (pyUpper zipcode) (ext.map pyUpper))
      else
        .ok (.overseasMilitary t0.literal t1.literal t3.literal
          (pyUpper city) (pyUpper state) (pyUpper zipcode) (ext.map pyUpper)) := by
  have hchk := baseInitCheck_ok state zipcode ext hstate hzip hext
  simp only [classifyTokens]
  rw [if_neg (by simp)]
  rw [if_pos ⟨hset, by simp [tokAt, hbox]⟩]
  rw [if_neg (by simp)]
  rw [if_neg (by simp [tokAt]; tauto)]
  by_cases hHC : t0.literal = "HC"
  · simp only [hHC, if_pos]
    simp [mkHighwayContractRoute, hchk, tokAt]
  · by_cases hRR : t0.literal = "RR"
    · simp only [hRR, if_neg hHC, if_pos]
      simp [mkRuralRoute, hchk, tokAt, hRR, hHC]
    · simp only [if_neg hHC, if_neg hRR]
      simp [mkOverseasMilitary, hchk, tokAt, hHC, hRR]
      rw [hupper]
      simp [pyIn_self]

/-- C4, witness: concrete dispatch of `HC. 5 BOX 9` tokens to an
overseas-military address with designator `"HC."`. -/
theorem c4_route_dispatch_witness :
    classifyTokens [⟨"HC.", .word, 0⟩, ⟨"5", .number, 4⟩, ⟨"BOX", .word, 6⟩, ⟨"9", .number, 10⟩]
      "SPRINGFIELD" "IL" "12345" none =
      .ok (.overseasMilitary "HC." "5" "9" "SPRINGFIELD" "IL" "12345" none) := by
  have h := c4_route_dispatch ⟨"HC.", .word, 0⟩ ⟨"5", .number, 4⟩ ⟨"BOX", .word, 6⟩ ⟨"9", .number, 10⟩ []
    "SPRINGFIELD" "IL" "12345" none (by decide) (by decide) (Or.inl rfl) (by decide) (by decide)
    (by decide) (Or.inl rfl)
  rw [if_neg (by decide), if_neg (by decide)] at h
  exact h.trans (by decide)

/-- C7, counterexample.  A delivery address whose token sequence contains
two pound tokens can parse SUCCESSFULLY: the route/box branch never runs
the pound scan, so `"HC 5 BOX # #"` returns a highway contract route
address (with box number `"#"`) instead of failing with the
multiple-pound-signs error. -/
theorem c7_two_pounds_counterexample :
    parse "HC 5 BOX # #" "SPRINGFIELD IL 12345" =
      .ok (.highwayContractRoute "5" "#" "SPRINGFIELD" "IL" "12345" none) := by
  decide

/-- C7, amended.  Restricted to the standard-address scan (lines 369-386),
where the pound constraints actually live: if the scanned token sequence
decomposes as `u ++ p1 :: v ++ p2 :: w` with `p1`, `p2` Pound tokens, no
Pound or Special token in `u` or `v` (so `p1` and `p2` are the first two
pounds and no unexpected-token error preempts), and the token immediately
before `p1` is not a secondary-unit-indicator match (so no
conflicting-unit error preempts at `p1`), then the scan fails with the
multiple-pound-signs error carrying the source position of the second
pound token. -/
theorem c7_second_pound_error (u v w : List Token) (p1 p2 : Token)
    (hp1 : p1.ty = TType.pound) (hp2 : p2.ty = TType.pound)
    (hu : ∀ t ∈ u, t.ty ≠ TType.pound ∧ t.ty ≠ TType.special)
    (hv : ∀ t ∈ v, t.ty ≠ TType.pound ∧ t.ty ≠ TType.special)
    (hlast : ∀ t, u.getLast? = some t →
      SECONDARY_UNIT_INDICATORS.contains (stripDots t.literal) = false) :
    scanTokens (u ++ (p1 :: (v ++ (p2 :: w)))) 0 none none false =
      .error (.addressParseError "only at most one pound sign (#) is permitted in an address" p2.index) := by
  rw [scanTokens_append u (p1 :: (v ++ (p2 :: w))) 0 none none false hu]
  simp only [scanTokens]
  rw [if_pos hp1]
  have hconf : (match (if SECONDARY_UNIT_INDICATORS.contains (stripDots p1.literal) then
      some (0 + u.length) else a2Fold u 0 none) with
      | some j => 0 + u.length == j + 1
      | none => false) = false := by
    by_cases hi : SECONDARY_UNIT_INDICATORS.contains (stripDots p1.literal) = true
    · rw [if_pos hi]
      simp only [beq_eq_false_iff_ne, ne_eq]
      omega
    · rw [if_neg hi]
      cases hfold : a2Fold u 0 none with
      | none => rfl
      | some j =>
        have := a2Fold_no_last_hit u hlast j hfold
        simp only [beq_eq_false_iff_ne, ne_eq]
        omega
  rw [if_neg (by simp)]
  rw [if_neg (by rw [hconf]; simp)]
  exact scanTokens_seen_pound v w p2 (0 + u.length + 1) _ _ hv hp2

/-- C7, witness: the two-token sequence `#`, `#` makes the scan fail at
the second pound sign's source index. -/
theorem c7_second_pound_error_witness :
    scanTokens [⟨"#", .pound, 10⟩, ⟨"#", .pound, 12⟩] 0 none none false =
      .error (.addressParseError "only at most one pound sign (#) is permitted in an address" 12) := by
  have h := c7_second_pound_error [] [] [] ⟨"#", .pound, 10⟩ ⟨"#", .pound, 12⟩ rfl rfl
    (by intro t ht; simp at ht) (by intro t ht; simp at ht) (by intro t ht; simp at ht)
  simpa using h

/-- C8, code bug (supporting theorem).  The hash defined on the base
class is `hash(self.__repr__())`, a fixed function of the repr string; this
theorem shows the repr string (hence the hash) is determined by the fields
compared by `__eq__`: for instances satisfying the constructor-enforced
5-character zipcode invariant, `a == b` implies `repr(a) == repr(b)`.  The
bug itself is that five subclasses override `__eq__` without defining
`__hash__`, which in Python sets `__hash__` to `None` and makes them
unhashable, contradicting the claim (and the class docstring). -/
theorem c8_eq_implies_same_repr (a b : Address)
    (ha : (zipcodeOf a).length = 5) (hb : (zipcodeOf b).length = 5)
    (heq : addrEq a b = true) : addrRepr a = addrRepr b := by
  cases a <;> cases b <;>
    simp only [addrEq, Bool.false_eq_true] at heq
  all_goals
    simp only [baseEqB, asTuple, Bool.and_eq_true, beq_iff_eq, List.cons.injEq,
      and_true] at heq
  all_goals
    simp only [zipcodeOf, baseFields] at ha hb
  · rcases heq with ⟨⟨hc, hs⟩, hz⟩
    obtain ⟨hzz, hee⟩ := zipcodeFull_inj _ _ _ _ ha hb hz
    subst_vars; rfl
  · rcases heq with ⟨⟨hc, hs⟩, hz⟩
    obtain ⟨hzz, hee⟩ := zipcodeFull_inj _ _ _ _ ha hb hz
    subst_vars; rfl
  · rcases heq with ⟨⟨⟨⟨hc, hs⟩, hz⟩, hr⟩, hbx⟩
    obtain ⟨hzz, hee⟩ := zipcodeFull_inj _ _ _ _ ha hb hz
    subst_vars; rfl
  · rcases heq with ⟨⟨⟨⟨⟨hc, hs⟩, hz⟩, ht⟩, hn⟩, hbx⟩
    obtain ⟨hzz, hee⟩ := zipcodeFull_inj _ _ _ _ ha hb hz
    subst_vars; rfl
  · rcases heq with ⟨⟨⟨hc, hs⟩, hz⟩, hbx⟩
    obtain ⟨hzz, hee⟩ := zipcodeFull_inj _ _ _ _ ha hb hz
    subst_vars; rfl
  · rcases heq with ⟨⟨⟨⟨hc, hs⟩, hz⟩, hr⟩, hbx⟩
    obtain ⟨hzz, hee⟩ := zipcodeFull_inj _ _ _ _ ha hb hz
    subst_vars; rfl
  · rcases heq with ⟨⟨⟨hc, hs⟩, hz⟩, h1, h2, h3, h4, h5, h6, h7⟩
    obtain ⟨hzz, hee⟩ := zipcodeFull_inj _ _ _ _ ha hb hz
    subst_vars; rfl

/-- C8, witness: two equal base addresses with a ZIP+4 extension have the
same repr string. -/
theorem c8_eq_implies_same_repr_witness :
    addrRepr (.base "SPRINGFIELD" "IL" "12345" (some "6789")) =
      addrRepr (.base "SPRINGFIELD" "IL" "12345" (some "6789")) :=
  c8_eq_implies_same_repr _ _ (by decide) (by decide) (by decide)

/-- C9, confirmed.  The parse outcome does not depend on the contents of
the highway-name-normalization table: `parseWith` ignores its table
argument because no code path of `Address.parse` reads `HIGHWAY_MAPPING`
(line 418 of the source is only a TODO comment). -/
theorem c9_highway_mapping_unused (t1 t2 : List (String × String)) (d l : String) :
    parseWith t1 d l = parseWith t2 d l := by
  rfl

/-- C10, confirmed.  For the successfully parsed delivery address
`"123 N"` (address number plus a trailing direction token), the resulting
`StandardAddress` has street name `""` — the empty string, not `None` —
while every other absent optional field is `None`. -/
theorem c10_empty_street_name :
    parse "123 N" "SPRINGFIELD IL 12345" =
      .ok (.standard (some "123") none (some "") none (some "N") none none
        "SPRINGFIELD" "IL" "12345" none)
    ∧ (some "" : Option String) ≠ none := by
  constructor
  · decide
  · decide

end AddressUtil
